import Mathlib

/-!
Verification of the smart-splash boot-phase detector
(`src/scripts/smart-splash.py` of amcchord/macemu).

The development shallowly embeds the two relevant pieces of the script:

* `analyze_screenshot` — PPM header parsing, strided pixel sampling and
  per-pixel colour classification, producing (yellowPct, greyPct, blackPct)
  as exact rationals;
* `monitor_vnc` — the polling loop that folds successive classification
  samples into a single terminal decision (dismiss now / dismiss on timeout),
  together with the `schedule_close` / `close` teardown pair.

Files are modelled as `Option (List Nat)` (byte lists; `none` is a
missing/unreadable file).  Per-attempt inputs to the monitor loop are
`Attempt.noFile` (capture exception or absent screenshot file — the body
guarded by `os.path.exists` is skipped) or `Attempt.sample y g b`
(the screenshot was analysed, yielding these percentages).
-/

namespace SmartSplash

/-! ## Colour classification (`analyze_screenshot`, lines 89–116) -/

inductive PixelClass where
  | yellow
  | grey
  | black
  | unclassified
deriving DecidableEq

/-- Yellow/tan test, lines 97–104: light yellow
`r > 200 and g > 200 and b < 220 and (b < r - 20 or b < g - 20)`
or tan/beige `r > 180 and g > 160 and b < 160 and r > b + 30`. -/
def isYellowPixel (r g b : ℤ) : Bool :=
  decide ((200 < r ∧ 200 < g ∧ b < 220 ∧ (b < r - 20 ∨ b < g - 20)) ∨
          (180 < r ∧ 160 < g ∧ b < 160 ∧ b + 30 < r))

/-- The `if / elif` chain of lines 106–116, first match wins:
yellow, Mac grey (`abs(r-g)<20 and abs(g-b)<20 and 165<r<215`),
white (`r>230 and g>230 and b>230`, also counted as grey),
black (`r<60 and g<60 and b<60`), otherwise unclassified. -/
def classifyPixel (r g b : ℤ) : PixelClass :=
  if isYellowPixel r g b then .yellow
  else if |r - g| < 20 ∧ |g - b| < 20 ∧ 165 < r ∧ r < 215 then .grey
  else if 230 < r ∧ 230 < g ∧ 230 < b then .grey
  else if r < 60 ∧ g < 60 ∧ b < 60 then .black
  else .unclassified

/-! ## PPM header parsing (lines 64–81)

`f.readline()` splits the byte stream at newline bytes (10); we model the
stream as the list of its lines (`toLines` partitions the bytes, each line
keeping its trailing newline).  The magic line and the max-value line are
read but never validated; comment lines start with `#` (byte 35); the
dimensions line is `line.decode().strip().split()` followed by `int(...)`
on the first two tokens.  Everything after the max-value line is
`f.read()`, the raw pixel data. -/

def toLinesAux : List Nat → List Nat → List (List Nat)
  | [], acc => if acc.isEmpty then [] else [acc.reverse]
  | c :: rest, acc =>
      if c = 10 then (acc.reverse ++ [10]) :: toLinesAux rest []
      else toLinesAux rest (c :: acc)

def toLines (bs : List Nat) : List (List Nat) := toLinesAux bs []

/-- Python `line.startswith(b'#')`. -/
def startsWithHash (l : List Nat) : Bool := l.take 1 == [35]

/-- ASCII whitespace for `str.split()` with no separator. -/
def isWsByte (c : Nat) : Bool :=
  c == 32 || c == 9 || c == 10 || c == 13 || c == 11 || c == 12

def splitWsAux : List Nat → List Nat → List (List Nat)
  | [], acc => if acc.isEmpty then [] else [acc.reverse]
  | c :: rest, acc =>
      if isWsByte c then
        if acc.isEmpty then splitWsAux rest []
        else acc.reverse :: splitWsAux rest []
      else splitWsAux rest (c :: acc)

def splitWs (l : List Nat) : List (List Nat) := splitWsAux l []

/-- Decimal digit run, as consumed by Python `int`. -/
def parseDigits (ds : List Nat) : Option Nat :=
  if ds.isEmpty then none
  else
    ds.foldl
      (fun acc c =>
        match acc with
        | none => none
        | some a => if 48 ≤ c ∧ c ≤ 57 then some (a * 10 + (c - 48)) else none)
      (some 0)

/-- Python `int(token)`: optional sign then a nonempty digit run. -/
def parseIntTok (tok : List Nat) : Option ℤ :=
  match tok with
  | 45 :: rest => (parseDigits rest).map (fun n => -(n : ℤ))
  | 43 :: rest => (parseDigits rest).map (fun n => (n : ℤ))
  | _ => (parseDigits tok).map (fun n => (n : ℤ))

/-- Lines 66–75: skip the magic line, skip `#` comment lines, then parse the
first two whitespace-separated tokens of the next line as integers.
`none` models the `ValueError`/`IndexError` the script would raise there. -/
def parsedDims (bs : List Nat) : Option (ℤ × ℤ) :=
  let lines := toLines bs
  let rest := (lines.drop 1).dropWhile startsWithHash
  let toks := splitWs (rest.headD [])
  match (toks.get? 0).bind parseIntTok, (toks.get? 1).bind parseIntTok with
  | some w, some h => some (w, h)
  | _, _ => none

/-- Lines 78–81: after the dimensions line, one more `readline` discards the
max-value line and `f.read()` returns every remaining byte.  No length check
against `width*height*3` is ever made. -/
def pixelBytes (bs : List Nat) : List Nat :=
  (((toLines bs).drop 1).dropWhile startsWithHash).drop 2 |>.flatten

inductive DecodeErr where
  | missing
  | badHeader
deriving DecidableEq

/-- The decode phase of `analyze_screenshot`: a missing/unreadable file or an
unparseable dimensions line raises inside the `try` (modelled as an error);
otherwise the parsed dimensions and the raw remaining bytes are produced. -/
def decode (file : Option (List Nat)) : Except DecodeErr (ℤ × ℤ × List Nat) :=
  match file with
  | none => .error .missing
  | some bs =>
      match parsedDims bs with
      | some (w, h) => .ok (w, h, pixelBytes bs)
      | none => .error .badHeader

/-! ## Pixel sampling and percentages (lines 83–127) -/

/-- Line 89: `step = max(3, len(pixel_data) // 3000) * 3`. -/
def sampleStep (len : Nat) : Nat := max 3 (len / 3000) * 3

/-- Line 90: the indices visited by `range(0, len(pixel_data) - 2, step)`:
multiples of the step below `len - 2`. -/
def sampleIndices (len : Nat) : List Nat :=
  let step := sampleStep len
  (List.range ((len - 2 + step - 1) / step)).map (fun k => k * step)

/-- Byte fetch (indices proved in bounds separately). -/
def getByte (data : List Nat) (i : Nat) : ℤ := (data.getD i 0 : ℤ)

/-- Lines 83–116: classify each sampled RGB triple and count the categories:
`(yellow_count, grey_count, black_count, total_samples)`. -/
def sampleCounts (data : List Nat) : Nat × Nat × Nat × Nat :=
  let classes := (sampleIndices data.length).map
    (fun i => classifyPixel (getByte data i) (getByte data (i + 1)) (getByte data (i + 2)))
  ((classes.filter (· == PixelClass.yellow)).length,
   (classes.filter (· == PixelClass.grey)).length,
   (classes.filter (· == PixelClass.black)).length,
   classes.length)

/-- Lines 118–122: the three percentages over the number of samples; with
zero samples the `if total_samples > 0` guard fails and the function falls
through to `return 0, 0, 0`. -/
def analyzePixels (data : List Nat) : ℚ × ℚ × ℚ :=
  let c := sampleCounts data
  if 0 < c.2.2.2 then
    (((c.1 : ℚ) / c.2.2.2) * 100, ((c.2.1 : ℚ) / c.2.2.2) * 100,
     ((c.2.2.1 : ℚ) / c.2.2.2) * 100)
  else (0, 0, 0)

/-- Function `analyze_screenshot` (lines 60–127): every exception inside the `try`
(missing file, bad header) falls through to `return 0, 0, 0`; otherwise the
pixel bytes are sampled and classified. -/
def analyze_screenshot (file : Option (List Nat)) : ℚ × ℚ × ℚ :=
  match decode file with
  | .error _ => (0, 0, 0)
  | .ok (_, _, px) => analyzePixels px

/-! ## Boot-phase detector (`monitor_vnc`, lines 129–205)

The loop body, per attempt `check_count`:

```
if yellow_pct > 20: yellow_seen = True; post_yellow_frames = 0
elif yellow_seen and yellow_pct < 10:
    post_yellow_frames += 1
    if post_yellow_frames >= 2: schedule_close(); return      -- hysteresis
if grey_pct > 50: schedule_close(); return                    -- grey screen
if check_count > 40 and not yellow_seen: schedule_close(); return  -- safety
```

falling out of the `while check_count < 80` loop calls `schedule_close`
as the timeout path. -/

structure DetState where
  yellow_seen : Bool
  post_yellow_frames : Nat
deriving DecidableEq

/-- Which of the three early-return transitions fired; every one of them
emits the same terminal decision (`DismissNow`). -/
inductive Reason where
  | hysteresis
  | greyScreen
  | safetyNet
deriving DecidableEq

inductive StepResult where
  | go (s : DetState)
  | dismiss (s : DetState) (r : Reason)
deriving DecidableEq

def StepResult.state : StepResult → DetState
  | .go s => s
  | .dismiss s _ => s

/-- Lines 177–189: the two checks every non-returning path falls through to:
the grey-screen override (`grey_pct > 50`) and the safety net
(`check_count > 40 and not yellow_seen`). -/
def midChecks (seen : Bool) (pyf cc : Nat) (g : ℚ) : StepResult :=
  if 50 < g then .dismiss ⟨seen, pyf⟩ .greyScreen
  else if 40 < cc ∧ seen = false then .dismiss ⟨seen, pyf⟩ .safetyNet
  else .go ⟨seen, pyf⟩

/-- One loop-body execution on a successfully analysed sample
(lines 160–189); `cc` is the current `check_count`. -/
def stepSample (seen : Bool) (pyf cc : Nat) (y g : ℚ) : StepResult :=
  if 20 < y then
    midChecks true 0 cc g
  else if seen = true ∧ y < 10 then
    if 2 ≤ pyf + 1 then .dismiss ⟨seen, pyf + 1⟩ .hysteresis
    else midChecks seen (pyf + 1) cc g
  else
    midChecks seen pyf cc g

/-- Input of one attempt: `noFile` covers an exception during the capture
(`subprocess.run` timeout) and an absent screenshot file — in both cases the
whole `if os.path.exists(...)` body, transition logic included, is skipped —
while `sample y g b` is an analysed screenshot (a decode failure inside
`analyze_screenshot` surfaces here as `sample 0 0 0`). -/
inductive Attempt where
  | noFile
  | sample (y g b : ℚ)
deriving DecidableEq

/-- Terminal result of a run: an early dismissal with its reason and the
`check_count` at which it fired, or the timeout path, each carrying the
final `(yellow_seen, post_yellow_frames)` state. -/
inductive Outcome where
  | now (r : Reason) (idx : Nat) (final : DetState)
  | timeout (final : DetState)
deriving DecidableEq

inductive Decision where
  | dismissNow
  | dismissOnTimeout
deriving DecidableEq

/-- Every early return emits `DismissNow`; budget exhaustion emits the
timeout dismissal. -/
def Outcome.decision : Outcome → Decision
  | .now _ _ _ => .dismissNow
  | .timeout _ => .dismissOnTimeout

/-- The `while self.running and check_count < 80` loop from an arbitrary
`check_count` and state, consuming one `Attempt` per iteration. -/
def runFrom (cc : Nat) (seen : Bool) (pyf : Nat) : List Attempt → Outcome
  | [] => .timeout ⟨seen, pyf⟩
  | a :: rest =>
      if 80 ≤ cc then .timeout ⟨seen, pyf⟩
      else
        match a with
        | .noFile => runFrom (cc + 1) seen pyf rest
        | .sample y g _ =>
            match stepSample seen pyf cc y g with
            | .dismiss s r => .now r cc s
            | .go s => runFrom (cc + 1) s.yellow_seen s.post_yellow_frames rest

def runDetector (l : List Attempt) : Outcome := runFrom 0 false 0 l

/-- The per-attempt pipeline outcome for an attempt whose screenshot file was
present: the sample fed to the transition logic is whatever
`analyze_screenshot` returned. -/
def pipelineAttempt (file : Option (List Nat)) : Attempt :=
  .sample (analyze_screenshot file).1 (analyze_screenshot file).2.1
    (analyze_screenshot file).2.2

/-! ## Event traces and teardown (lines 140–220) -/

inductive Event where
  | capture (idx : Nat)
  | emit (d : Decision)
deriving DecidableEq

/-- The observable events of a run: one capture attempt per loop iteration
(the `subprocess.run` of line 143 executes on every iteration, including
failing ones) and the single `schedule_close` notification. -/
def traceFrom (cc : Nat) (seen : Bool) (pyf : Nat) : List Attempt → List Event
  | [] => [.emit .dismissOnTimeout]
  | a :: rest =>
      if 80 ≤ cc then [.emit .dismissOnTimeout]
      else
        .capture cc ::
          (match a with
           | .noFile => traceFrom (cc + 1) seen pyf rest
           | .sample y g _ =>
               match stepSample seen pyf cc y g with
               | .dismiss _ _ => [.emit .dismissNow]
               | .go s => traceFrom (cc + 1) s.yellow_seen s.post_yellow_frames rest)

def traceDetector (l : List Attempt) : List Event := traceFrom 0 false 0 l

/-- Overlay-controller state: the `running` flag and how many times the
teardown body (`close`, lines 212–220) has actually executed. -/
structure OverlayState where
  running : Bool
  teardowns : Nat
deriving DecidableEq

/-- Method `close` (lines 212–220): clears `running` and performs the teardown. -/
def closeOverlay (st : OverlayState) : OverlayState :=
  { running := false, teardowns := st.teardowns + 1 }

/-- Method `schedule_close` (lines 207–210): delivers the teardown notification only
while `running` is still set. -/
def schedule_close (st : OverlayState) : OverlayState :=
  if st.running then closeOverlay st else st

/-! ## Concrete raster files used as test vectors -/

/-- A 4×4 uniform-colour raster file: header `P6\n4 4\n255\n` followed by
16 RGB triples. -/
def uniformRaster (r g b : Nat) : List Nat :=
  [80, 54, 10, 52, 32, 52, 10, 50, 53, 53, 10] ++ (List.replicate 16 [r, g, b]).flatten

/-- A raster file whose dimensions line declares `a b` (single digits) but
which carries only one black pixel (3 bytes) of pixel data. -/
def tinyRaster (a b : Nat) : List Nat :=
  [80, 54, 10, 48 + a, 32, 48 + b, 10, 50, 53, 53, 10, 0, 0, 0]

/-! ## Spec-side classification conditions (§4.3 of the spec, for C6) -/

/-- The spec's yellow/tan rule:
`(R>200 AND G>200 AND B<220 AND (B<R-20 OR B<G-20)) OR
 (R>180 AND G>160 AND B<160 AND R>B+30)`. -/
def specYellow (r g b : ℤ) : Prop :=
  (200 < r ∧ 200 < g ∧ b < 220 ∧ (b < r - 20 ∨ b < g - 20)) ∨
  (180 < r ∧ 160 < g ∧ b < 160 ∧ r > b + 30)

/-- The spec's grey-or-white rule:
`(|R-G|<20 AND |G-B|<20 AND 165<R<215) OR (R>230 AND G>230 AND B>230)`. -/
def specGrey (r g b : ℤ) : Prop :=
  (|r - g| < 20 ∧ |g - b| < 20 ∧ 165 < r ∧ r < 215) ∨
  (r > 230 ∧ g > 230 ∧ b > 230)

/-- The spec's black rule: `R<60 AND G<60 AND B<60`. -/
def specBlack (r g b : ℤ) : Prop := r < 60 ∧ g < 60 ∧ b < 60

/-! ## Helper lemmas -/

lemma midChecks_grey_dismiss (seen : Bool) (pyf cc : Nat) (g : ℚ) (hg : 50 < g) :
    midChecks seen pyf cc g = .dismiss ⟨seen, pyf⟩ .greyScreen := by
  simp [midChecks, if_pos hg]

lemma midChecks_state (seen : Bool) (pyf cc : Nat) (g : ℚ) :
    (midChecks seen pyf cc g).state = ⟨seen, pyf⟩ := by
  unfold midChecks
  split_ifs <;> rfl

lemma filter_classes_le (cs : List PixelClass) :
    (cs.filter (· == PixelClass.yellow)).length + (cs.filter (· == PixelClass.grey)).length
      + (cs.filter (· == PixelClass.black)).length ≤ cs.length := by
  induction cs with
  | nil => simp
  | cons c cs ih => cases c <;> simp [List.filter_cons] <;> omega

lemma sampleCounts_sum_le (data : List Nat) :
    (sampleCounts data).1 + (sampleCounts data).2.1 + (sampleCounts data).2.2.1 ≤
      (sampleCounts data).2.2.2 := by
  unfold sampleCounts
  exact filter_classes_le _

lemma analyzePixels_bounds (data : List Nat) :
    0 ≤ (analyzePixels data).1 ∧ (analyzePixels data).1 ≤ 100 ∧
    0 ≤ (analyzePixels data).2.1 ∧ (analyzePixels data).2.1 ≤ 100 ∧
    0 ≤ (analyzePixels data).2.2 ∧ (analyzePixels data).2.2 ≤ 100 ∧
    (analyzePixels data).1 + (analyzePixels data).2.1 + (analyzePixels data).2.2 ≤ 100 := by
  have hsum := sampleCounts_sum_le data
  unfold analyzePixels
  set yc := (sampleCounts data).1 with hy
  set gc := (sampleCounts data).2.1 with hg
  set bc := (sampleCounts data).2.2.1 with hb
  set total := (sampleCounts data).2.2.2 with htot
  by_cases ht : 0 < total
  · have htq : (0 : ℚ) < total := by exact_mod_cast ht
    have hsq : (yc : ℚ) + gc + bc ≤ total := by exact_mod_cast hsum
    have h0y : (0 : ℚ) ≤ yc := by positivity
    have h0g : (0 : ℚ) ≤ gc := by positivity
    have h0b : (0 : ℚ) ≤ bc := by positivity
    simp only [if_pos ht]
    refine ⟨by positivity, ?_, by positivity, ?_, by positivity, ?_, ?_⟩
    · rw [div_mul_eq_mul_div, div_le_iff₀ htq]; linarith
    · rw [div_mul_eq_mul_div, div_le_iff₀ htq]; linarith
    · rw [div_mul_eq_mul_div, div_le_iff₀ htq]; linarith
    · have hrw : (yc : ℚ) / total * 100 + (gc : ℚ) / total * 100 + (bc : ℚ) / total * 100
          = ((yc : ℚ) + gc + bc) / total * 100 := by ring
      rw [hrw, div_mul_eq_mul_div, div_le_iff₀ htq]
      linarith
  · simp only [if_neg ht]
    norm_num

/-! ## Claims -/

/-- C1: fed `[yellow=80]×3` then `[yellow=5]×2` (grey and black 0), the
detector dismisses via the hysteresis transition exactly while processing the
sample at index 4 — the 2nd low-yellow sample after `YellowSeen` — whatever
samples follow; and any sample with `yellowPct > 20` leaves the step in
`yellow_seen = true` with the post-yellow frame counter reset to 0. -/
theorem c1_dismiss_on_second_low_yellow :
    (∀ rest : List Attempt,
        runDetector ([.sample 80 0 0, .sample 80 0 0, .sample 80 0 0,
                      .sample 5 0 0, .sample 5 0 0] ++ rest) =
          .now .hysteresis 4 ⟨true, 2⟩) ∧
    (∀ (seen : Bool) (pyf cc : Nat) (y g : ℚ), 20 < y →
        (stepSample seen pyf cc y g).state = ⟨true, 0⟩) := by
  constructor
  · intro rest
    norm_num [runDetector, runFrom, stepSample, midChecks]
  · intro seen pyf cc y g hy
    simp only [stepSample, if_pos hy]
    exact midChecks_state true 0 cc g

/-- Witness for C1 at a concrete yellow sample. -/
theorem c1_witness :
    (stepSample false 3 7 80 0).state = ⟨true, 0⟩ :=
  c1_dismiss_on_second_low_yellow.2 false 3 7 80 0 (by norm_num)

/-- C4: from any detector state (any `yellow_seen`, any counter value, any
`check_count`), a sample with `greyPct > 50` makes the loop body return a
dismissal on that same attempt, and every such early return carries the
`DismissNow` decision. -/
theorem c4_grey_override_dismisses (seen : Bool) (pyf cc : Nat) (y g : ℚ)
    (hg : 50 < g) :
    ∃ s r, stepSample seen pyf cc y g = .dismiss s r ∧
      (Outcome.now r cc s).decision = Decision.dismissNow := by
  unfold stepSample
  split_ifs <;>
    first
      | exact ⟨_, _, midChecks_grey_dismiss _ _ _ _ hg, rfl⟩
      | exact ⟨_, _, rfl, rfl⟩

/-- Witness for C4: a grey-dominated sample dismisses from the initial state. -/
theorem c4_witness :
    ∃ s r, stepSample false 0 0 0 60 = .dismiss s r ∧
      (Outcome.now r 0 s).decision = Decision.dismissNow :=
  c4_grey_override_dismisses false 0 0 0 60 (by norm_num)

/-- C2: on 80 all-zero samples the safety net fires the `DismissNow`
dismissal at `check_count = 41` — the first attempt on which more than 40
attempts have elapsed with `yellow_seen` still false — and not at the final
timeout: the first 41 all-zero attempts fire nothing.  A run that survives
all 80 attempts with no transition firing ends in the timeout dismissal
(`DismissOnTimeout`), as the concrete yellow-then-deadband run shows, and the
timeout decision arises exactly from the no-transition outcome. -/
theorem c2_safety_net_before_timeout :
    runDetector (List.replicate 80 (.sample 0 0 0)) = .now .safetyNet 41 ⟨false, 0⟩ ∧
    runDetector (List.replicate 41 (.sample 0 0 0)) = .timeout ⟨false, 0⟩ ∧
    runDetector (.sample 80 0 0 :: List.replicate 79 (.sample 15 0 0)) =
      .timeout ⟨true, 0⟩ ∧
    (∀ l : List Attempt,
        (runDetector l).decision = Decision.dismissOnTimeout ↔
          ∃ s, runDetector l = .timeout s) := by
  refine ⟨by decide, by decide, by decide, ?_⟩
  intro l
  cases h : runDetector l <;> simp [Outcome.decision]

/-- C3 counterexample: 80 attempts that all fail before classification
(capture error / missing screenshot file) run to the final timeout, while 80
all-zero classification samples trigger the safety net at `check_count = 41`:
the two runs are not state-machine equivalent. -/
theorem c3_counterexample :
    runDetector (List.replicate 80 Attempt.noFile) = .timeout ⟨false, 0⟩ ∧
    runDetector (List.replicate 80 (.sample 0 0 0)) = .now .safetyNet 41 ⟨false, 0⟩ ∧
    runDetector (List.replicate 80 Attempt.noFile) ≠
      runDetector (List.replicate 80 (.sample 0 0 0)) := by
  decide

/-- C3 amended: only a decode failure is turned into an all-zero sample that
still flows through the full transition logic; a capture failure or missing
screenshot file skips the transition logic of that attempt entirely, leaving
every counter except `check_count` untouched and never consulting the safety
net on that attempt. -/
theorem c3_failure_handling :
    (∀ (file : Option (List Nat)) (e : DecodeErr), decode file = .error e →
        pipelineAttempt file = .sample 0 0 0) ∧
    (∀ (cc : Nat) (seen : Bool) (pyf : Nat) (rest : List Attempt), cc < 80 →
        runFrom cc seen pyf (.noFile :: rest) = runFrom (cc + 1) seen pyf rest) := by
  constructor
  · intro file e h
    simp [pipelineAttempt, analyze_screenshot, h]
  · intro cc seen pyf rest hcc
    simp [runFrom, Nat.not_le.mpr hcc]

/-- Witness for C3's amended statement at a missing file and at attempt 0. -/
theorem c3_witness :
    pipelineAttempt none = .sample 0 0 0 ∧
    runFrom 0 false 0 [.noFile] = runFrom 1 false 0 [] :=
  ⟨c3_failure_handling.1 none .missing rfl,
   c3_failure_handling.2 0 false 0 [] (by norm_num)⟩

/-- C5 counterexample: in `[yellow=80, yellow=5, yellow=15, yellow=5]` the
third sample (yellow 15%) is not a qualifying frame, yet the detector still
fires the hysteresis dismissal on the fourth sample with the counter at 2:
an interposed non-qualifying frame does not prevent the counter from
reaching 2 on the second qualifying frame. -/
theorem c5_counterexample :
    runDetector [.sample 80 0 0, .sample 5 0 0, .sample 15 0 0, .sample 5 0 0] =
      .now .hysteresis 3 ⟨true, 2⟩ := by
  decide

/-- C5 amended: the hysteresis transition fires exactly on a frame with
`yellowPct < 10` seen from `YellowSeen` when the counter already stands at
1 or more (so the counter reaches 2 qualifying frames in total, not
necessarily consecutive); a frame with `10 ≤ yellowPct ≤ 20` leaves both
`yellow_seen` and the counter unchanged, and only a frame with
`yellowPct > 20` resets the counter to 0. -/
theorem c5_hysteresis_characterisation :
    (∀ (seen : Bool) (pyf cc : Nat) (y g : ℚ),
        stepSample seen pyf cc y g = .dismiss ⟨true, pyf + 1⟩ .hysteresis ↔
          (¬ 20 < y ∧ seen = true ∧ y < 10 ∧ 1 ≤ pyf)) ∧
    (∀ (seen : Bool) (pyf cc : Nat) (y g : ℚ),
        ¬ 20 < y → ¬ (seen = true ∧ y < 10) →
        (stepSample seen pyf cc y g).state = ⟨seen, pyf⟩) ∧
    (∀ (seen : Bool) (pyf cc : Nat) (y g : ℚ), 20 < y →
        (stepSample seen pyf cc y g).state.post_yellow_frames = 0) := by
  refine ⟨?_, ?_, ?_⟩
  · intro seen pyf cc y g
    unfold stepSample midChecks
    split_ifs <;> simp_all
  · intro seen pyf cc y g hy hq
    simp only [stepSample, if_neg hy, if_neg hq]
    exact midChecks_state seen pyf cc g
  · intro seen pyf cc y g hy
    simp only [stepSample, if_pos hy, midChecks_state]

/-- Witness for C5's amended statement: from `⟨true, 1⟩` a qualifying frame
fires with counter 2, and a deadband frame leaves `⟨true, 1⟩` untouched. -/
theorem c5_witness :
    stepSample true 1 5 5 0 = .dismiss ⟨true, 2⟩ .hysteresis ∧
    (stepSample true 1 5 15 0).state = ⟨true, 1⟩ :=
  ⟨(c5_hysteresis_characterisation.1 true 1 5 5 0).mpr
     ⟨by norm_num, rfl, by norm_num, by norm_num⟩,
   c5_hysteresis_characterisation.2.1 true 1 5 15 0 (by norm_num) (by norm_num)⟩

/-- C6: per sampled pixel the classifier realises exactly the spec's
priority-ordered rules — yellow on the  spec's yellow/tan condition, grey
exactly on the grey-or-white condition when not yellow, black exactly on the
black condition when neither, otherwise unclassified — and the four uniform
4×4 rasters classify to 100% yellow, 100% grey, 100% black and all-zero
respectively. -/
theorem c6_classifier_rules :
    (∀ r g b : ℤ,
        (classifyPixel r g b = .yellow ↔ specYellow r g b) ∧
        (classifyPixel r g b = .grey ↔ ¬ specYellow r g b ∧ specGrey r g b) ∧
        (classifyPixel r g b = .black ↔
          ¬ specYellow r g b ∧ ¬ specGrey r g b ∧ specBlack r g b) ∧
        (classifyPixel r g b = .unclassified ↔
          ¬ specYellow r g b ∧ ¬ specGrey r g b ∧ ¬ specBlack r g b)) ∧
    analyze_screenshot (some (uniformRaster 255 255 150)) = (100, 0, 0) ∧
    analyze_screenshot (some (uniformRaster 189 189 189)) = (0, 100, 0) ∧
    analyze_screenshot (some (uniformRaster 0 0 0)) = (0, 0, 100) ∧
    analyze_screenshot (some (uniformRaster 100 50 200)) = (0, 0, 0) := by
  refine ⟨?_, ?_, ?_, ?_, ?_⟩
  · intro r g b
    unfold classifyPixel isYellowPixel specYellow specGrey specBlack
    split_ifs <;> simp_all
  · have hd : parsedDims (uniformRaster 255 255 150) = some (4, 4) := by decide
    have hc : sampleCounts (pixelBytes (uniformRaster 255 255 150)) = (6, 0, 0, 6) := by
      decide
    simp [analyze_screenshot, decode, hd, analyzePixels, hc]
  · have hd : parsedDims (uniformRaster 189 189 189) = some (4, 4) := by decide
    have hc : sampleCounts (pixelBytes (uniformRaster 189 189 189)) = (0, 6, 0, 6) := by
      decide
    simp [analyze_screenshot, decode, hd, analyzePixels, hc]
  · have hd : parsedDims (uniformRaster 0 0 0) = some (4, 4) := by decide
    have hc : sampleCounts (pixelBytes (uniformRaster 0 0 0)) = (0, 0, 6, 6) := by decide
    simp [analyze_screenshot, decode, hd, analyzePixels, hc]
  · have hd : parsedDims (uniformRaster 100 50 200) = some (4, 4) := by decide
    have hc : sampleCounts (pixelBytes (uniformRaster 100 50 200)) = (0, 0, 0, 6) := by
      decide
    simp [analyze_screenshot, decode, hd, analyzePixels, hc]

/-- C7: for every input file — decode failure included — the three
percentages produced by `analyze_screenshot` each lie in `[0, 100]` and sum
to at most 100; and when zero pixels are sampled (pixel buffer shorter than
3 bytes) the classifier returns `(0, 0, 0)` rather than failing. -/
theorem c7_percentage_bounds :
    (∀ file : Option (List Nat),
        0 ≤ (analyze_screenshot file).1 ∧ (analyze_screenshot file).1 ≤ 100 ∧
        0 ≤ (analyze_screenshot file).2.1 ∧ (analyze_screenshot file).2.1 ≤ 100 ∧
        0 ≤ (analyze_screenshot file).2.2 ∧ (analyze_screenshot file).2.2 ≤ 100 ∧
        (analyze_screenshot file).1 + (analyze_screenshot file).2.1 +
          (analyze_screenshot file).2.2 ≤ 100) ∧
    (∀ data : List Nat, data.length ≤ 2 → analyzePixels data = (0, 0, 0)) := by
  constructor
  · intro file
    rcases hdec : decode file with e | ⟨w, ht, px⟩
    · simp [analyze_screenshot, hdec]
    · simp only [analyze_screenshot, hdec]
      exact analyzePixels_bounds px
  · intro data hlen
    have h0 : data.length - 2 = 0 := by omega
    have h3 : data.length / 3000 = 0 := Nat.div_eq_of_lt (by omega)
    have hidx : sampleIndices data.length = [] := by
      unfold sampleIndices sampleStep
      rw [h3, h0]
      simp
    have hc : sampleCounts data = (0, 0, 0, 0) := by
      unfold sampleCounts
      rw [hidx]
      rfl
    unfold analyzePixels
    rw [hc]
    norm_num

/-- Witness for C7's degenerate-buffer clause at a 2-byte buffer. -/
theorem c7_witness : analyzePixels [0, 0] = (0, 0, 0) :=
  c7_percentage_bounds.2 [0, 0] (by norm_num)

/-- C8 counterexample: a file whose header declares 2×2 pixels but which
carries only 3 pixel bytes (3 < 2·2·3 = 12, i.e. truncated pixel data) is
decoded successfully — not rejected with a `DecodeError` — and classified as
a perfectly ordinary all-black sample. -/
theorem c8_counterexample :
    decode (some (tinyRaster 2 2)) = .ok (2, 2, [0, 0, 0]) ∧
    ((tinyRaster 2 2).drop 11).length < 2 * 2 * 3 ∧
    analyze_screenshot (some (tinyRaster 2 2)) = (0, 0, 100) := by
  have hd : parsedDims (tinyRaster 2 2) = some (2, 2) := by decide
  have hpx : pixelBytes (tinyRaster 2 2) = [0, 0, 0] := by decide
  have hc : sampleCounts (pixelBytes (tinyRaster 2 2)) = (0, 0, 1, 1) := by decide
  refine ⟨?_, by decide, ?_⟩
  · simp [decode, hd, hpx]
  · simp [analyze_screenshot, decode, hd, analyzePixels, hc]

/-- C8 amended: decode fails exactly on a missing/unreadable file or on a
dimensions line that does not parse as two integers; whenever the dimensions
parse, decode succeeds with whatever pixel bytes follow the header (truncated
pixel data included — no length check against `width*height*3` exists), and
every decode error is non-fatal, surfacing to the caller as the all-zero
sample of a missed attempt. -/
theorem c8_decode_error_cases :
    (∀ file : Option (List Nat), decode file = .error .missing ↔ file = none) ∧
    (∀ bs : List Nat, decode (some bs) = .error .badHeader ↔ parsedDims bs = none) ∧
    (∀ (bs : List Nat) (w h : ℤ), parsedDims bs = some (w, h) →
        decode (some bs) = .ok (w, h, pixelBytes bs)) ∧
    (∀ (file : Option (List Nat)) (e : DecodeErr), decode file = .error e →
        analyze_screenshot file = (0, 0, 0)) := by
  refine ⟨?_, ?_, ?_, ?_⟩
  · intro file
    rcases file with _ | bs
    · simp [decode]
    · rcases h : parsedDims bs with _ | ⟨w, ht⟩ <;> simp [decode, h]
  · intro bs
    rcases h : parsedDims bs with _ | ⟨w, ht⟩ <;> simp [decode, h]
  · intro bs w h hp
    simp [decode, hp]
  · intro file e h
    simp [analyze_screenshot, h]

/-- Witness for C8's amended statement at a missing file. -/
theorem c8_witness : analyze_screenshot none = (0, 0, 0) :=
  c8_decode_error_cases.2.2.2 none .missing rfl

lemma traceFrom_shape (l : List Attempt) :
    ∀ (cc : Nat) (seen : Bool) (pyf : Nat), ∃ (caps : List Nat) (d : Decision),
      traceFrom cc seen pyf l = caps.map Event.capture ++ [Event.emit d] := by
  induction l with
  | nil =>
      intro cc seen pyf
      exact ⟨[], .dismissOnTimeout, rfl⟩
  | cons a rest ih =>
      intro cc seen pyf
      by_cases hcc : 80 ≤ cc
      · exact ⟨[], .dismissOnTimeout, by simp [traceFrom, hcc]⟩
      · cases a with
        | noFile =>
            obtain ⟨caps, d, h⟩ := ih (cc + 1) seen pyf
            exact ⟨cc :: caps, d, by simp [traceFrom, hcc, h]⟩
        | sample y g b =>
            cases hs : stepSample seen pyf cc y g with
            | dismiss s r =>
                exact ⟨[cc], .dismissNow, by simp [traceFrom, hcc, hs]⟩
            | go s =>
                obtain ⟨caps, d, h⟩ := ih (cc + 1) s.yellow_seen s.post_yellow_frames
                exact ⟨cc :: caps, d, by simp [traceFrom, hcc, hs, h]⟩

/-- C9: every run's event trace is a block of capture attempts followed by a
single terminal decision emission — the decision is emitted exactly once and
no capture attempt follows it — and the teardown notification is idempotent:
once `close` has run, `running` is cleared and any repeated `schedule_close`
leaves the state (in particular the teardown count) unchanged. -/
theorem c9_decision_emitted_once :
    (∀ l : List Attempt, ∃ (caps : List Nat) (d : Decision),
        traceDetector l = caps.map Event.capture ++ [Event.emit d]) ∧
    (∀ st : OverlayState, schedule_close (schedule_close st) = schedule_close st) ∧
    (∀ st : OverlayState, (closeOverlay st).running = false ∧
        schedule_close (closeOverlay st) = closeOverlay st) := by
  refine ⟨fun l => traceFrom_shape l 0 false 0, ?_, ?_⟩
  · intro st
    by_cases h : st.running <;> simp [schedule_close, closeOverlay, h]
  · intro st
    simp [schedule_close, closeOverlay]

lemma sampleIndices_bound (len i : Nat) (hi : i ∈ sampleIndices len) :
    i + 2 < len := by
  unfold sampleIndices at hi
  simp only [List.mem_map, List.mem_range] at hi
  obtain ⟨k, hk, rfl⟩ := hi
  have h1 : 3 ≤ max 3 (len / 3000) := Nat.le_max_left _ _
  have hstep : 9 ≤ sampleStep len := by
    unfold sampleStep
    calc (9 : Nat) = 3 * 3 := rfl
      _ ≤ max 3 (len / 3000) * 3 := Nat.mul_le_mul_right 3 h1
  have h2 : (k + 1) * sampleStep len ≤
      ((len - 2 + sampleStep len - 1) / sampleStep len) * sampleStep len :=
    Nat.mul_le_mul_right _ hk
  have h3 : ((len - 2 + sampleStep len - 1) / sampleStep len) * sampleStep len ≤
      len - 2 + sampleStep len - 1 := Nat.div_mul_le_self _ _
  have h4 : k * sampleStep len + sampleStep len ≤ len - 2 + sampleStep len - 1 := by
    calc k * sampleStep len + sampleStep len = (k + 1) * sampleStep len := by ring
      _ ≤ _ := le_trans h2 h3
  omega

/-- C10: classification never reads out of range and never consults the
parsed dimensions: every sampled index satisfies `i + 2 < len` over the bytes
actually present, and two files decoding to identical pixel bytes — whatever
widths and heights their headers declare — classify identically. -/
theorem c10_sampling_ignores_dimensions :
    (∀ len i : Nat, i ∈ sampleIndices len → i + 2 < len) ∧
    (∀ (bs1 bs2 : List Nat) (w1 h1 w2 h2 : ℤ) (px : List Nat),
        decode (some bs1) = .ok (w1, h1, px) → decode (some bs2) = .ok (w2, h2, px) →
        analyze_screenshot (some bs1) = analyze_screenshot (some bs2)) := by
  refine ⟨sampleIndices_bound, ?_⟩
  intro bs1 bs2 w1 h1 w2 h2 px hd1 hd2
  simp [analyze_screenshot, hd1, hd2]

/-- Witness for C10: a sampled index of a 14-byte buffer is in range, and two
files declaring 2×2 and 9×7 over the same single black pixel classify
identically. -/
theorem c10_witness :
    0 + 2 < 14 ∧
    analyze_screenshot (some (tinyRaster 2 2)) = analyze_screenshot (some (tinyRaster 9 7)) := by
  constructor
  · exact c10_sampling_ignores_dimensions.1 14 0 (by decide)
  · refine c10_sampling_ignores_dimensions.2 (tinyRaster 2 2) (tinyRaster 9 7)
      2 2 9 7 [0, 0, 0] ?_ ?_
    · have hd : parsedDims (tinyRaster 2 2) = some (2, 2) := by decide
      have hpx : pixelBytes (tinyRaster 2 2) = [0, 0, 0] := by decide
      simp [decode, hd, hpx]
    · have hd : parsedDims (tinyRaster 9 7) = some (9, 7) := by decide
      have hpx : pixelBytes (tinyRaster 9 7) = [0, 0, 0] := by decide
      simp [decode, hd, hpx]

end SmartSplash
